import Mathlib

/- Shallow embedding of TerraTime (src/app.py).

   The app queries Google Earth Engine for Landsat scenes, builds a yearly
   median-composite NDVI image, reduces it to a mean over a circular region of
   interest, derives a 0-100 green score and a percent change between 2014 and
   2024, and renders a persona-dependent report behind a three-screen flow
   (splash, persona selection, app).

   External services are modelled abstractly:
   - the Earth Engine catalog is a `World`: a list of `Scene`s (acquisition
     date, scene cloud-cover estimate, footprint as a pixel set, per-pixel
     band values) plus an abstract point-buffer geometry `mkRoi`;
   - an image is a partial per-pixel map (`none` = masked pixel);
   - `ee.Date.fromYMD` is an order-preserving injective encoding of calendar
     dates; `filterDate(start, end)` keeps start ≤ t < end (the Earth Engine
     end bound is exclusive); `ee.Filter.lt` is a strict comparison;
   - `collection.median()` is a per-pixel, per-band median of the scenes whose
     footprint holds the pixel (masked when no scene does);
   - `normalizedDifference` divides (b1 - b2) by (b1 + b2), masked where the
     denominator is zero; `reduceRegion` with a mean reducer averages the
     unmasked pixels of the region, returning null when there are none;
   - network effects (the getInfo transport, scene-query transport, geocoding,
     timelapse generation, the local filesystem) are oracles carried by `Env`,
     each an `Except`/`Bool` outcome per call site. -/

abbrev Pixel := Nat

structure Scene where
  date : Int
  cloudCover : ℚ
  bounds : List Pixel
  nir : Pixel → ℚ
  red : Pixel → ℚ

structure ROI where
  pixels : List Pixel

structure World where
  scenes : List Scene
  mkRoi : ℚ → ℚ → ℚ → ROI

structure Loc where
  latitude : ℚ
  longitude : ℚ
deriving DecidableEq

def fromYMD (y : Int) (m d : Nat) : Int :=
  y * 372 + ((m : Int) - 1) * 31 + ((d : Int) - 1)

def intersectsBounds (roi : ROI) (s : Scene) : Bool :=
  roi.pixels.any (fun p => s.bounds.contains p)

abbrev Image := Pixel → Option ℚ

def insertSorted (x : ℚ) : List ℚ → List ℚ
  | [] => [x]
  | y :: ys => if x ≤ y then x :: y :: ys else y :: insertSorted x ys

def sortQ (l : List ℚ) : List ℚ := l.foldr insertSorted []

def medianQ (l : List ℚ) : Option ℚ :=
  let s := sortQ l
  let n := s.length
  if n = 0 then none
  else if n % 2 = 1 then s[n / 2]?
  else
    match s[n / 2 - 1]?, s[n / 2]? with
    | some a, some b => some ((a + b) / 2)
    | _, _ => none

def compositeBand (scenes : List Scene) (band : Scene → Pixel → ℚ) : Image :=
  fun p => medianQ ((scenes.filter (fun s => s.bounds.contains p)).map (fun s => band s p))

def normalizedDifference (b1 b2 : Image) : Image := fun p =>
  match b1 p, b2 p with
  | some x, some y => if x + y = 0 then none else some ((x - y) / (x + y))
  | _, _ => none

def reduceRegion_mean (img : Image) (roi : ROI) : Option ℚ :=
  let vals := roi.pixels.filterMap img
  if vals.length = 0 then none
  else some (vals.foldl (fun a b => a + b) 0 / (vals.length : ℚ))

/- Per-run environment: the sidebar inputs of one audit run plus the oracles
   for every remote call site. -/
structure Env where
  eeInitOk : Bool
  run_audit : Bool
  address : String
  buffer_km : ℚ
  show_health : Bool
  year_preview : Option Int
  geocode : String → Except String (Option Loc)
  world : World
  trImg : Int → Except String Unit
  trInfo : Int → Except String Unit
  timelapse : Except String Unit
  fsExists : String → Bool

/- src/app.py geocode_location: any geocoder exception is swallowed to None. -/
def geocode_location (env : Env) (address : String) : Option Loc :=
  match env.geocode address with
  | Except.error _ => none
  | Except.ok r => r

/- src/app.py create_roi: circular buffer of buffer_km * 1000 meters. -/
def create_roi (env : Env) (lon lat : ℚ) (buffer_km : ℚ) : ROI :=
  env.world.mkRoi lon lat (buffer_km * 1000)

/- src/app.py get_ndvi_image: filterDate(Jan 1, Dec 31), filterBounds(roi),
   Filter.lt("CLOUD_COVER", 60), median composite,
   normalizedDifference(["SR_B5", "SR_B4"]). -/
def get_ndvi_core (w : World) (year : Int) (roi : ROI) : Image :=
  let collection :=
    ((w.scenes.filter (fun s =>
        decide (fromYMD year 1 1 ≤ s.date) && decide (s.date < fromYMD year 12 31))).filter
      (fun s => intersectsBounds roi s)).filter (fun s => decide (s.cloudCover < 60))
  normalizedDifference (compositeBand collection Scene.nir) (compositeBand collection Scene.red)

/- The scene-query transport for the year can raise; get_ndvi_image itself
   catches nothing, so the exception propagates to the caller. -/
def get_ndvi_image (env : Env) (year : Int) (roi : ROI) : Except String Image :=
  match env.trImg year with
  | Except.error e => Except.error e
  | Except.ok _ => Except.ok (get_ndvi_core env.world year roi)

/- src/app.py compute_mean_ndvi: reduceRegion mean at scale 30; a null stat
   returns None, and any exception out of getInfo is swallowed to None. -/
def compute_mean_ndvi (tr : Except String Unit) (ndvi_image : Image) (roi : ROI) : Option ℚ :=
  match reduceRegion_mean ndvi_image roi with
  | none => none
  | some v =>
    match tr with
    | Except.error _ => none
    | Except.ok _ => some v

/- The body of the per-year loop of compute_ndvi_series: the try block around
   get_ndvi_image and compute_mean_ndvi, any exception giving None. -/
def yearly_try (env : Env) (roi : ROI) (y : Int) : Option ℚ :=
  match get_ndvi_image env y roi with
  | Except.error _ => none
  | Except.ok ndvi_img => compute_mean_ndvi (env.trInfo y) ndvi_img roi

/- src/app.py compute_ndvi_series: years = range(start, end + 1); values built
   by appending each year's try-block result. -/
def compute_ndvi_series (env : Env) (roi : ROI) (start_year end_year : Int) :
    List Int × List (Option ℚ) :=
  let years := (List.range (end_year + 1 - start_year).toNat).map
    (fun i => start_year + Int.ofNat i)
  let values := years.foldl (fun acc y =>
    let mean_v :=
      match get_ndvi_image env y roi with
      | Except.error _ => none
      | Except.ok ndvi_img => compute_mean_ndvi (env.trInfo y) ndvi_img roi
    acc ++ [mean_v]) []
  (years, values)

/- src/app.py create_timelapse_gif: any exception inside returns None; on
   success the out_gif path is returned only if the file exists on disk. -/
def create_timelapse_gif (env : Env) (out_gif : String) : Option String :=
  match env.timelapse with
  | Except.error _ => none
  | Except.ok _ => if env.fsExists out_gif then some out_gif else none

/- src/app.py app_screen lines 660-667: the change-report arithmetic. -/
def green_score (mean_ndvi : ℚ) : ℚ := (mean_ndvi + 1) / 2 * 100

def pct_change (mean_ndvi_2014 mean_ndvi_2024 : ℚ) : ℚ :=
  if mean_ndvi_2014 ≠ 0 then
    (mean_ndvi_2024 - mean_ndvi_2014) / |mean_ndvi_2014| * 100
  else 0

/- Report rendering (src/app.py render_report), reduced to the displayed
   content: the three metrics, the persona-specific interpretation block, the
   optional trend chart, and the timelapse block. -/
inductive ChangeLabel
  | loss (amount : ℚ)
  | gain (amount : ℚ)
  | noChange
deriving DecidableEq

inductive PersonaSection
  | publicView (address : String) (buffer_km : ℚ) (label : ChangeLabel)
  | studentView (address : String) (buffer_km : ℚ) (m2014 m2024 diff : ℚ)
  | scientistView (address : String) (buffer_km : ℚ) (m2014 m2024 diff pct : ℚ)
deriving DecidableEq

inductive TimelapseSection
  | controls (path : String)
  | warningUnavailable
deriving DecidableEq

structure ReportView where
  green_metric_2014 : ℚ
  green_metric_2024 : ℚ
  change_label : ChangeLabel
  persona_section : PersonaSection
  trend_chart : Option (List Int × List (Option ℚ))
  timelapse : TimelapseSection
deriving DecidableEq

/- The values app_screen computes and hands to render_report. -/
structure ReportData where
  mean_ndvi_2014 : ℚ
  mean_ndvi_2024 : ℚ
  green_score_2014 : ℚ
  green_score_2024 : ℚ
  pct_change : ℚ
  ndvi_years : List Int
  ndvi_values : List (Option ℚ)
  gif_path : Option String
deriving DecidableEq

inductive AuditOutcome
  | stopped
  | idle
  | errorMsg (msg : String)
  | report (d : ReportData) (v : ReportView)
deriving DecidableEq

def render_report (persona address : String) (buffer_km : ℚ)
    (mean_ndvi_2014 mean_ndvi_2024 green_score_2014 green_score_2024 pct : ℚ)
    (gif_path : Option String) (ndvi_years : List Int) (ndvi_values : List (Option ℚ))
    (fsExists : String → Bool) : ReportView :=
  let change_label : ChangeLabel :=
    if pct < 0 then ChangeLabel.loss |pct|
    else if pct > 0 then ChangeLabel.gain pct
    else ChangeLabel.noChange
  let persona_section : PersonaSection :=
    if persona == "public" then
      PersonaSection.publicView address buffer_km change_label
    else if persona == "student" then
      PersonaSection.studentView address buffer_km mean_ndvi_2014 mean_ndvi_2024
        (mean_ndvi_2024 - mean_ndvi_2014)
    else
      PersonaSection.scientistView address buffer_km mean_ndvi_2014 mean_ndvi_2024
        (mean_ndvi_2024 - mean_ndvi_2014) pct
  let trend_chart : Option (List Int × List (Option ℚ)) :=
    if (persona == "scientist" || persona == "student")
        && !ndvi_years.isEmpty && ndvi_values.any (fun v => v.isSome) then
      some (ndvi_years, ndvi_values)
    else none
  let timelapse : TimelapseSection :=
    match gif_path with
    | some p => if p = "" then TimelapseSection.warningUnavailable
        else if fsExists p then TimelapseSection.controls p
        else TimelapseSection.warningUnavailable
    | none => TimelapseSection.warningUnavailable
  { green_metric_2014 := green_score_2014, green_metric_2024 := green_score_2024,
    change_label := change_label, persona_section := persona_section,
    trend_chart := trend_chart, timelapse := timelapse }

/- src/app.py app_screen: one audit run for a given persona string. -/
def app_screen (env : Env) (persona : String) : AuditOutcome :=
  if env.eeInitOk then
    if env.run_audit then
      if env.address.data.all Char.isWhitespace then
        AuditOutcome.errorMsg "Please enter a valid location string."
      else
        match geocode_location env env.address with
        | none => AuditOutcome.errorMsg
            "Could not find that location. Try a more specific address or another place."
        | some location =>
          let lat := location.latitude
          let lon := location.longitude
          let roi := create_roi env lon lat env.buffer_km
          match get_ndvi_image env 2014 roi with
          | Except.error e =>
            AuditOutcome.errorMsg ("Error computing NDVI statistics from Earth Engine: " ++ e)
          | Except.ok ndvi_2014 =>
            match get_ndvi_image env 2024 roi with
            | Except.error e =>
              AuditOutcome.errorMsg ("Error computing NDVI statistics from Earth Engine: " ++ e)
            | Except.ok ndvi_2024 =>
              let mean_ndvi_2014 := compute_mean_ndvi (env.trInfo 2014) ndvi_2014 roi
              let mean_ndvi_2024 := compute_mean_ndvi (env.trInfo 2024) ndvi_2024 roi
              match mean_ndvi_2014, mean_ndvi_2024 with
              | some m2014, some m2024 =>
                let g2014 := green_score m2014
                let g2024 := green_score m2024
                let pct := pct_change m2014 m2024
                let series :=
                  if persona == "scientist" || persona == "student" then
                    compute_ndvi_series env roi 2014 2024
                  else ([], [])
                let gif_path := create_timelapse_gif env "terrtime_timelapse.gif"
                AuditOutcome.report
                  { mean_ndvi_2014 := m2014, mean_ndvi_2024 := m2024,
                    green_score_2014 := g2014, green_score_2024 := g2024,
                    pct_change := pct, ndvi_years := series.1, ndvi_values := series.2,
                    gif_path := gif_path }
                  (render_report persona env.address env.buffer_km m2014 m2024 g2014 g2024 pct
                    gif_path series.1 series.2 env.fsExists)
              | _, _ =>
                AuditOutcome.errorMsg
                  "Could not compute vegetation stats for this area. Try a slightly larger radius or a different location."
    else AuditOutcome.idle
  else AuditOutcome.stopped

/- src/app.py main: the three-stage dispatch over the session state. -/
structure SessionState where
  stage : Option String
  persona : Option String
deriving DecidableEq

inductive Screen
  | splashView
  | personaSelect
  | redirectToPersona
  | appView (o : AuditOutcome)
deriving DecidableEq

def main_dispatch (env : Env) (s : SessionState) : SessionState × Screen :=
  let s1 := if s.stage = none then { s with stage := some "splash" } else s
  let stage := s1.stage.getD "splash"
  let persona := s1.persona
  if stage = "splash" then (s1, Screen.splashView)
  else if stage = "persona" then (s1, Screen.personaSelect)
  else if persona.getD "" = "" then
    ({ s1 with stage := some "persona" }, Screen.redirectToPersona)
  else (s1, Screen.appView (app_screen env (persona.getD "")))

/- Spec-side single-year pipeline, following spec.md section 4.3 word for
   word: scenes covering the ROI acquired within the calendar year, scenes
   exceeding 60 percent cloud cover excluded, per-pixel median composite,
   normalized index (nir - red) / (nir + red), area mean over the ROI. -/
def spec_yearly_mean (w : World) (year : Int) (roi : ROI) : Option ℚ :=
  let scenes := w.scenes.filter (fun s =>
    intersectsBounds roi s
    && (decide (fromYMD year 1 1 ≤ s.date) && decide (s.date ≤ fromYMD year 12 31))
    && !(decide (s.cloudCover > 60)))
  reduceRegion_mean
    (normalizedDifference (compositeBand scenes Scene.nir) (compositeBand scenes Scene.red)) roi

/- Spec-side pipeline amended to the boundaries the code actually uses:
   acquisition strictly before December 31 (the date filter's end bound is
   exclusive) and cloud cover strictly below 60 percent. -/
def spec_yearly_mean_amended (w : World) (year : Int) (roi : ROI) : Option ℚ :=
  let scenes := w.scenes.filter (fun s =>
    intersectsBounds roi s
    && (decide (fromYMD year 1 1 ≤ s.date) && decide (s.date < fromYMD year 12 31))
    && decide (s.cloudCover < 60))
  reduceRegion_mean
    (normalizedDifference (compositeBand scenes Scene.nir) (compositeBand scenes Scene.red)) roi

/- The code-side single-year mean on a transport that does not fail. -/
def code_yearly_mean (w : World) (year : Int) (roi : ROI) : Option ℚ :=
  compute_mean_ndvi (Except.ok ()) (get_ndvi_core w year roi) roi

/- Projections of an audit outcome used to compare runs. -/
def audit_data (env : Env) (persona : String) : Option ReportData :=
  match app_screen env persona with
  | AuditOutcome.report d _ => some d
  | _ => none

def audit_core (env : Env) (persona : String) :
    Option (ℚ × ℚ × ℚ × ℚ × ℚ × Option String) :=
  (audit_data env persona).map (fun d =>
    (d.mean_ndvi_2014, d.mean_ndvi_2024, d.green_score_2014, d.green_score_2024,
     d.pct_change, d.gif_path))

def audit_trend (env : Env) (persona : String) : Option (List Int × List (Option ℚ)) :=
  (audit_data env persona).map (fun d => (d.ndvi_years, d.ndvi_values))

/- Normalize an outcome by erasing the timelapse artifact and its section,
   keeping every numeric and statistical field. -/
def stripTimelapse : AuditOutcome → AuditOutcome
  | AuditOutcome.report d v =>
    AuditOutcome.report { d with gif_path := none }
      { v with timelapse := TimelapseSection.warningUnavailable }
  | o => o

/- Concrete instances used by witnesses and counterexamples. -/
def exLoc : Loc := { latitude := -3, longitude := -60 }

def exScene2014 : Scene :=
  { date := fromYMD 2014 6 1, cloudCover := 10, bounds := [0],
    nir := fun _ => 3, red := fun _ => 1 }

def exScene2024 : Scene :=
  { date := fromYMD 2024 6 1, cloudCover := 10, bounds := [0],
    nir := fun _ => 2, red := fun _ => 1 }

def exRoi : ROI := { pixels := [0] }

def exWorld : World :=
  { scenes := [exScene2014, exScene2024], mkRoi := fun _ _ _ => exRoi }

def exEnv : Env :=
  { eeInitOk := true, run_audit := true, address := "Amazon Basin", buffer_km := 10,
    show_health := true, year_preview := none,
    geocode := fun _ => Except.ok (some exLoc),
    world := exWorld,
    trImg := fun _ => Except.ok (), trInfo := fun _ => Except.ok (),
    timelapse := Except.ok (), fsExists := fun _ => true }

def exEnvFail2015 : Env :=
  { exEnv with trImg := fun y => if y = 2015 then Except.error "boom" else Except.ok () }

def exEnvNoScenes : Env :=
  { exEnv with world := { scenes := [], mkRoi := fun _ _ _ => exRoi } }

def exEnvGifFail : Env :=
  { exEnv with timelapse := Except.error "timelapse error" }

/- A scene with a cloud-cover estimate of exactly 60 percent. -/
def exSceneCloud60 : Scene :=
  { date := fromYMD 2014 6 1, cloudCover := 60, bounds := [0],
    nir := fun _ => 3, red := fun _ => 1 }

/- A scene acquired on December 31 of the audited year. -/
def exSceneDec31 : Scene :=
  { date := fromYMD 2014 12 31, cloudCover := 10, bounds := [0],
    nir := fun _ => 3, red := fun _ => 1 }

def exWorldBoundary : World :=
  { scenes := [exSceneCloud60, exSceneDec31], mkRoi := fun _ _ _ => exRoi }

/- Helper lemmas. -/

lemma foldl_push {α β : Type} (f : α → β) (l : List α) (acc : List β) :
    l.foldl (fun a y => a ++ [f y]) acc = acc ++ l.map f := by
  induction l generalizing acc with
  | nil => simp
  | cons x xs ih => simp [ih]

lemma compute_ndvi_series_years (env : Env) (roi : ROI) (s e : Int) :
    (compute_ndvi_series env roi s e).1 =
      (List.range (e + 1 - s).toNat).map (fun i => s + Int.ofNat i) := rfl

lemma compute_ndvi_series_values (env : Env) (roi : ROI) (s e : Int) :
    (compute_ndvi_series env roi s e).2 =
      (compute_ndvi_series env roi s e).1.map (yearly_try env roi) := by
  show ((List.range (e + 1 - s).toNat).map (fun i => s + Int.ofNat i)).foldl
      (fun a y => a ++ [yearly_try env roi y]) [] = _
  rw [foldl_push]
  rfl

lemma yearly_try_congr (env env' : Env) (roi : ROI) (y : Int)
    (hw : env'.world = env.world) (hImg : env'.trImg y = env.trImg y)
    (hInfo : env'.trInfo y = env.trInfo y) :
    yearly_try env' roi y = yearly_try env roi y := by
  unfold yearly_try get_ndvi_image
  rw [hw, hImg, hInfo]

lemma yearly_try_fail (env : Env) (roi : ROI) (y : Int) (e : String)
    (h : env.trImg y = Except.error e ∨ env.trInfo y = Except.error e) :
    yearly_try env roi y = none := by
  unfold yearly_try get_ndvi_image compute_mean_ndvi
  rcases h with h | h
  · rw [h]
  · cases himg : env.trImg y with
    | error _ => rfl
    | ok _ =>
      rw [h]
      cases hr : reduceRegion_mean (get_ndvi_core env.world y roi) roi <;> simp [hr]

lemma range_map_getElem (s : Int) (n i : Nat)
    (hi : i < ((List.range n).map (fun k => s + Int.ofNat k)).length) :
    ((List.range n).map (fun k => s + Int.ofNat k))[i] = s + (i : Int) := by
  simp only [List.getElem_map, List.getElem_range]
  rfl

/-- C1: for every defined mean index value in [-1, 1], the green score equals
(index + 1) / 2 * 100, lies in [0, 100], and is monotonically increasing in
the index value. -/
theorem C1_green_score_bounds_mono (x y : ℚ)
    (hx1 : -1 ≤ x) (hx2 : x ≤ 1) (_hy1 : -1 ≤ y) (_hy2 : y ≤ 1) :
    green_score x = (x + 1) / 2 * 100 ∧
    0 ≤ green_score x ∧ green_score x ≤ 100 ∧
    (x ≤ y → green_score x ≤ green_score y) := by
  refine ⟨rfl, ?_, ?_, ?_⟩ <;> unfold green_score
  · linarith
  · linarith
  · intro h; linarith

theorem C1_green_score_bounds_mono_witness :
    green_score 0 = (0 + 1) / 2 * 100 ∧
    0 ≤ green_score 0 ∧ green_score 0 ≤ 100 ∧
    ((0 : ℚ) ≤ 1 → green_score 0 ≤ green_score 1) :=
  C1_green_score_bounds_mono 0 1 (by norm_num) (by norm_num) (by norm_num) (by norm_num)

/-- C2: for every pair of mean index values, the percent change equals
(index_B - index_A) / |index_A| * 100 when index_A is nonzero, and is exactly
0 when index_A = 0, regardless of index_B. -/
theorem C2_pct_change_formula (a b : ℚ) :
    (a ≠ 0 → pct_change a b = (b - a) / |a| * 100) ∧
    (a = 0 → pct_change a b = 0) := by
  constructor
  · intro h; simp [pct_change, h]
  · intro h; simp [pct_change, h]

theorem C2_pct_change_formula_witness :
    pct_change 1 3 = (3 - 1) / |(1 : ℚ)| * 100 ∧ pct_change 0 5 = 0 :=
  ⟨(C2_pct_change_formula 1 3).1 (by norm_num), (C2_pct_change_formula 0 5).2 rfl⟩

/-- C5: for every year range [Y0, Y1] with Y0 ≤ Y1 and every ROI, the series
sampler returns exactly Y1 - Y0 + 1 yearly samples, one per year in strictly
ascending order, each value being the single-year pipeline result (the try
block around get_ndvi_image and compute_mean_ndvi) for its year. -/
theorem C5_series_shape (env : Env) (roi : ROI) (s e : Int) (h : s ≤ e) :
    ((compute_ndvi_series env roi s e).1.length : Int) = e - s + 1 ∧
    List.Pairwise (fun a b => a < b) (compute_ndvi_series env roi s e).1 ∧
    (∀ i (hi : i < (compute_ndvi_series env roi s e).1.length),
      (compute_ndvi_series env roi s e).1[i] = s + (i : Int)) ∧
    (compute_ndvi_series env roi s e).2 =
      (compute_ndvi_series env roi s e).1.map (yearly_try env roi) := by
  have hget : ∀ i (hi : i < (compute_ndvi_series env roi s e).1.length),
      (compute_ndvi_series env roi s e).1[i] = s + (i : Int) := by
    intro i hi
    exact range_map_getElem s ((e + 1 - s).toNat) i hi
  refine ⟨?_, ?_, hget, compute_ndvi_series_values env roi s e⟩
  · rw [compute_ndvi_series_years]
    simp only [List.length_map, List.length_range]
    omega
  · rw [List.pairwise_iff_getElem]
    intro i j hi hj hij
    rw [hget i hi, hget j hj]
    omega

theorem C5_series_shape_witness :
    ((compute_ndvi_series exEnv exRoi 2014 2016).1.length : Int) = 2016 - 2014 + 1 ∧
    List.Pairwise (fun a b => a < b) (compute_ndvi_series exEnv exRoi 2014 2016).1 ∧
    (∀ i (hi : i < (compute_ndvi_series exEnv exRoi 2014 2016).1.length),
      (compute_ndvi_series exEnv exRoi 2014 2016).1[i] = 2014 + (i : Int)) ∧
    (compute_ndvi_series exEnv exRoi 2014 2016).2 =
      (compute_ndvi_series exEnv exRoi 2014 2016).1.map (yearly_try exEnv exRoi) :=
  C5_series_shape exEnv exRoi 2014 2016 (by norm_num)

/-- C10: for every ROI and every pair of integer years, the series sampler is
total and returns years and values of equal length; when start_year is
greater than end_year it returns two empty lists. -/
theorem C10_series_total (env : Env) (roi : ROI) (s e : Int) :
    (compute_ndvi_series env roi s e).1.length =
      (compute_ndvi_series env roi s e).2.length ∧
    (e < s → compute_ndvi_series env roi s e = ([], [])) := by
  constructor
  · rw [compute_ndvi_series_values, List.length_map]
  · intro hlt
    have hz : (e + 1 - s).toNat = 0 := by omega
    unfold compute_ndvi_series
    rw [hz]
    rfl

theorem C10_series_total_witness :
    (compute_ndvi_series exEnv exRoi 2025 2014).1.length =
      (compute_ndvi_series exEnv exRoi 2025 2014).2.length ∧
    compute_ndvi_series exEnv exRoi 2025 2014 = ([], []) :=
  ⟨(C10_series_total exEnv exRoi 2025 2014).1,
   (C10_series_total exEnv exRoi 2025 2014).2 (by norm_num)⟩

/-- C4: a transport or service exception raised while computing one year's
mean index inside the multi-year series is caught and converted to the
unavailable value (none) for that year only; the years list and every other
year's value are unchanged with respect to a run whose oracles agree on all
other years. -/
theorem C4_single_year_failure_isolated (env env' : Env) (roi : ROI)
    (y0 : Int) (e : String) (s ed : Int)
    (hw : env'.world = env.world)
    (hImg : ∀ y, y ≠ y0 → env'.trImg y = env.trImg y)
    (hInfo : ∀ y, y ≠ y0 → env'.trInfo y = env.trInfo y)
    (hfail : env'.trImg y0 = Except.error e ∨ env'.trInfo y0 = Except.error e) :
    (compute_ndvi_series env' roi s ed).1 = (compute_ndvi_series env roi s ed).1 ∧
    (compute_ndvi_series env' roi s ed).2.length =
      (compute_ndvi_series env roi s ed).2.length ∧
    ∀ i (hi : i < (compute_ndvi_series env roi s ed).1.length),
      ((compute_ndvi_series env roi s ed).1[i] = y0 →
        (compute_ndvi_series env' roi s ed).2[i]? = some none) ∧
      ((compute_ndvi_series env roi s ed).1[i] ≠ y0 →
        (compute_ndvi_series env' roi s ed).2[i]? =
          (compute_ndvi_series env roi s ed).2[i]?) := by
  have hyears : (compute_ndvi_series env' roi s ed).1 =
      (compute_ndvi_series env roi s ed).1 := rfl
  have hlen : (compute_ndvi_series env' roi s ed).2.length =
      (compute_ndvi_series env roi s ed).2.length := by
    rw [compute_ndvi_series_values, compute_ndvi_series_values, List.length_map,
      List.length_map, hyears]
  refine ⟨hyears, hlen, ?_⟩
  intro i hi
  have hi' : i < (compute_ndvi_series env' roi s ed).1.length := hi
  have hv : (compute_ndvi_series env roi s ed).2[i]? =
      some (yearly_try env roi ((compute_ndvi_series env roi s ed).1[i])) := by
    rw [compute_ndvi_series_values, List.getElem?_map, List.getElem?_eq_getElem hi]
    rfl
  have hv' : (compute_ndvi_series env' roi s ed).2[i]? =
      some (yearly_try env' roi ((compute_ndvi_series env' roi s ed).1[i])) := by
    rw [compute_ndvi_series_values, List.getElem?_map, List.getElem?_eq_getElem hi']
    rfl
  constructor
  · intro hy0
    rw [hv']
    have h0 : (compute_ndvi_series env' roi s ed).1[i] = y0 := hy0
    rw [h0, yearly_try_fail env' roi y0 e hfail]
  · intro hy0
    rw [hv', hv]
    have hsame : (compute_ndvi_series env' roi s ed).1[i] =
        (compute_ndvi_series env roi s ed).1[i] := rfl
    rw [hsame, yearly_try_congr env env' roi _ hw
      (hImg _ hy0) (hInfo _ hy0)]

theorem C4_single_year_failure_isolated_witness :
    (compute_ndvi_series exEnvFail2015 exRoi 2014 2016).1 =
      (compute_ndvi_series exEnv exRoi 2014 2016).1 ∧
    (compute_ndvi_series exEnvFail2015 exRoi 2014 2016).2[1]? = some none ∧
    (compute_ndvi_series exEnvFail2015 exRoi 2014 2016).2[0]? =
      (compute_ndvi_series exEnv exRoi 2014 2016).2[0]? := by
  have h := C4_single_year_failure_isolated exEnv exEnvFail2015 exRoi 2015 "boom"
    2014 2016 rfl
    (by intro y hy
        show (if y = 2015 then Except.error "boom" else Except.ok ()) = Except.ok ()
        simp [hy])
    (by intro y hy; rfl)
    (Or.inl rfl)
  refine ⟨h.1, ?_, ?_⟩
  · exact (h.2.2 1 (by decide)).1 (by decide)
  · exact (h.2.2 0 (by decide)).2 (by decide)

lemma compute_mean_ndvi_ok (img : Image) (roi : ROI) :
    compute_mean_ndvi (Except.ok ()) img roi = reduceRegion_mean img roi := by
  unfold compute_mean_ndvi
  cases reduceRegion_mean img roi <;> rfl

lemma code_filter_eq_amended (w : World) (year : Int) (roi : ROI) :
    ((w.scenes.filter (fun s =>
        decide (fromYMD year 1 1 ≤ s.date) && decide (s.date < fromYMD year 12 31))).filter
      (fun s => intersectsBounds roi s)).filter (fun s => decide (s.cloudCover < 60)) =
    w.scenes.filter (fun s =>
      intersectsBounds roi s
      && (decide (fromYMD year 1 1 ≤ s.date) && decide (s.date < fromYMD year 12 31))
      && decide (s.cloudCover < 60)) := by
  rw [List.filter_filter, List.filter_filter]
  apply List.filter_congr
  intro s _
  simp only [Bool.and_comm, Bool.and_left_comm, Bool.and_assoc]

/-- C3 counterexample: on a catalog holding one scene with a cloud-cover
estimate of exactly 60 percent and one scene acquired on December 31 of the
audited year, the code's yearly mean (which keeps cloud cover strictly below
60 and cuts the date range strictly before December 31) differs from the
yearly mean prescribed by the spec sentence (which keeps both scenes). -/
theorem C3_pipeline_counterexample :
    code_yearly_mean exWorldBoundary 2014 exRoi ≠
      spec_yearly_mean exWorldBoundary 2014 exRoi := by
  have h1 : code_yearly_mean exWorldBoundary 2014 exRoi = none := by
    norm_num [code_yearly_mean, get_ndvi_core, compute_mean_ndvi, reduceRegion_mean,
      normalizedDifference, compositeBand, medianQ, sortQ, insertSorted, intersectsBounds,
      exWorldBoundary, exSceneCloud60, exSceneDec31, exRoi, fromYMD,
      List.filter, List.filterMap]
  have h2 : spec_yearly_mean exWorldBoundary 2014 exRoi = some (1 / 2) := by
    norm_num [spec_yearly_mean, reduceRegion_mean,
      normalizedDifference, compositeBand, medianQ, sortQ, insertSorted, intersectsBounds,
      exWorldBoundary, exSceneCloud60, exSceneDec31, exRoi, fromYMD,
      List.filter, List.filterMap]
  rw [h1, h2]
  exact fun h => Option.noConfusion h

/-- C3 (amended): for every year and ROI, the yearly mean index selects the
scenes intersecting the ROI acquired on or after January 1 and strictly
before December 31 of the calendar year, excludes scenes whose cloud cover is
60 percent or more, takes a per-pixel median composite, computes
(nir - red) / (nir + red) per pixel, and reduces to the area mean over the
ROI. -/
theorem C3_pipeline_amended (w : World) (year : Int) (roi : ROI) :
    code_yearly_mean w year roi = spec_yearly_mean_amended w year roi := by
  unfold code_yearly_mean
  rw [compute_mean_ndvi_ok]
  simp only [get_ndvi_core, spec_yearly_mean_amended]
  rw [code_filter_eq_amended]

/-- C8: whenever the report stage is entered with no persona selected (unset
or empty), main redirects the session back to the persona-selection stage and
renders no report screen. -/
theorem C8_persona_redirect (env : Env) (s : SessionState)
    (hstage : s.stage = some "app")
    (hpersona : s.persona = none ∨ s.persona = some "") :
    (main_dispatch env s).1.stage = some "persona" ∧
    (main_dispatch env s).2 = Screen.redirectToPersona ∧
    ∀ o, (main_dispatch env s).2 ≠ Screen.appView o := by
  obtain ⟨st, pe⟩ := s
  simp only at hstage
  subst hstage
  rcases hpersona with hp | hp <;> simp only at hp <;> subst hp <;>
    exact ⟨rfl, rfl, fun o h => Screen.noConfusion h⟩

theorem C8_persona_redirect_witness :
    (main_dispatch exEnv { stage := some "app", persona := none }).1.stage =
      some "persona" ∧
    (main_dispatch exEnv { stage := some "app", persona := none }).2 =
      Screen.redirectToPersona :=
  ⟨(C8_persona_redirect exEnv { stage := some "app", persona := none } rfl
      (Or.inl rfl)).1,
   (C8_persona_redirect exEnv { stage := some "app", persona := none } rfl
      (Or.inl rfl)).2.1⟩

/- Characterization of a successful audit run: when every guard passes and
   both yearly means are defined, app_screen returns the report built from
   those means. -/
lemma app_screen_success (env : Env) (persona : String) (loc : Loc) (m2014 m2024 : ℚ)
    (hee : env.eeInitOk = true) (hra : env.run_audit = true)
    (haddr : env.address.data.all Char.isWhitespace = false)
    (hgeo : geocode_location env env.address = some loc)
    (h14 : env.trImg 2014 = Except.ok ()) (h24 : env.trImg 2024 = Except.ok ())
    (hm14 : compute_mean_ndvi (env.trInfo 2014)
      (get_ndvi_core env.world 2014 (create_roi env loc.longitude loc.latitude env.buffer_km))
      (create_roi env loc.longitude loc.latitude env.buffer_km) = some m2014)
    (hm24 : compute_mean_ndvi (env.trInfo 2024)
      (get_ndvi_core env.world 2024 (create_roi env loc.longitude loc.latitude env.buffer_km))
      (create_roi env loc.longitude loc.latitude env.buffer_km) = some m2024) :
    app_screen env persona = AuditOutcome.report
      { mean_ndvi_2014 := m2014, mean_ndvi_2024 := m2024,
        green_score_2014 := green_score m2014, green_score_2024 := green_score m2024,
        pct_change := pct_change m2014 m2024,
        ndvi_years := (if persona == "scientist" || persona == "student" then
          compute_ndvi_series env (create_roi env loc.longitude loc.latitude env.buffer_km)
            2014 2024 else ([], [])).1,
        ndvi_values := (if persona == "scientist" || persona == "student" then
          compute_ndvi_series env (create_roi env loc.longitude loc.latitude env.buffer_km)
            2014 2024 else ([], [])).2,
        gif_path := create_timelapse_gif env "terrtime_timelapse.gif" }
      (render_report persona env.address env.buffer_km m2014 m2024 (green_score m2014)
        (green_score m2024) (pct_change m2014 m2024)
        (create_timelapse_gif env "terrtime_timelapse.gif")
        (if persona == "scientist" || persona == "student" then
          compute_ndvi_series env (create_roi env loc.longitude loc.latitude env.buffer_km)
            2014 2024 else ([], [])).1
        (if persona == "scientist" || persona == "student" then
          compute_ndvi_series env (create_roi env loc.longitude loc.latitude env.buffer_km)
            2014 2024 else ([], [])).2
        env.fsExists) := by
  unfold app_screen
  simp only [hee, hra, haddr, Bool.false_eq_true, if_false, hgeo, get_ndvi_image, h14, h24, hm14, hm24, if_true]

/- Characterization of the insufficient-data path: when the guards pass but
   either yearly mean is unavailable, app_screen reports insufficient data. -/
lemma app_screen_insufficient (env : Env) (persona : String) (loc : Loc)
    (hee : env.eeInitOk = true) (hra : env.run_audit = true)
    (haddr : env.address.data.all Char.isWhitespace = false)
    (hgeo : geocode_location env env.address = some loc)
    (h14 : env.trImg 2014 = Except.ok ()) (h24 : env.trImg 2024 = Except.ok ())
    (hmean : compute_mean_ndvi (env.trInfo 2014)
      (get_ndvi_core env.world 2014 (create_roi env loc.longitude loc.latitude env.buffer_km))
      (create_roi env loc.longitude loc.latitude env.buffer_km) = none ∨
      compute_mean_ndvi (env.trInfo 2024)
      (get_ndvi_core env.world 2024 (create_roi env loc.longitude loc.latitude env.buffer_km))
      (create_roi env loc.longitude loc.latitude env.buffer_km) = none) :
    app_screen env persona = AuditOutcome.errorMsg
      "Could not compute vegetation stats for this area. Try a slightly larger radius or a different location." := by
  unfold app_screen
  rcases hmean with hm | hm
  · simp only [hee, hra, haddr, Bool.false_eq_true, if_false, hgeo, get_ndvi_image, h14, h24, hm, if_true]
  · cases hm14 : compute_mean_ndvi (env.trInfo 2014)
        (get_ndvi_core env.world 2014 (create_roi env loc.longitude loc.latitude env.buffer_km))
        (create_roi env loc.longitude loc.latitude env.buffer_km) <;>
      simp only [hee, hra, haddr, Bool.false_eq_true, if_false, hgeo, get_ndvi_image, h14, h24, hm, hm14, if_true]

/- Concrete evaluations of the yearly means on the example catalogs. -/
lemma exEnv_mean_2014 : compute_mean_ndvi (exEnv.trInfo 2014)
    (get_ndvi_core exEnv.world 2014
      (create_roi exEnv exLoc.longitude exLoc.latitude exEnv.buffer_km))
    (create_roi exEnv exLoc.longitude exLoc.latitude exEnv.buffer_km) = some (1 / 2) := by
  norm_num [compute_mean_ndvi, get_ndvi_core, reduceRegion_mean, normalizedDifference,
    compositeBand, medianQ, sortQ, insertSorted, intersectsBounds, create_roi,
    exEnv, exWorld, exScene2014, exScene2024, exRoi, exLoc, fromYMD,
    List.filter, List.filterMap]

lemma exEnv_mean_2024 : compute_mean_ndvi (exEnv.trInfo 2024)
    (get_ndvi_core exEnv.world 2024
      (create_roi exEnv exLoc.longitude exLoc.latitude exEnv.buffer_km))
    (create_roi exEnv exLoc.longitude exLoc.latitude exEnv.buffer_km) = some (1 / 3) := by
  norm_num [compute_mean_ndvi, get_ndvi_core, reduceRegion_mean, normalizedDifference,
    compositeBand, medianQ, sortQ, insertSorted, intersectsBounds, create_roi,
    exEnv, exWorld, exScene2014, exScene2024, exRoi, exLoc, fromYMD,
    List.filter, List.filterMap]

lemma exEnvNoScenes_mean_2014 : compute_mean_ndvi (exEnvNoScenes.trInfo 2014)
    (get_ndvi_core exEnvNoScenes.world 2014
      (create_roi exEnvNoScenes exLoc.longitude exLoc.latitude exEnvNoScenes.buffer_km))
    (create_roi exEnvNoScenes exLoc.longitude exLoc.latitude exEnvNoScenes.buffer_km) =
      none := by
  norm_num [compute_mean_ndvi, get_ndvi_core, reduceRegion_mean, normalizedDifference,
    compositeBand, medianQ, sortQ, insertSorted, intersectsBounds, create_roi,
    exEnvNoScenes, exEnv, exRoi, exLoc, fromYMD, List.filter, List.filterMap]

/-- C6: when the audit guards pass but either comparison year's mean index is
unavailable, the run surfaces the insufficient-data message suggesting a
larger radius or different location, and produces no report of any kind. -/
theorem C6_insufficient_data (env : Env) (persona : String) (loc : Loc)
    (hee : env.eeInitOk = true) (hra : env.run_audit = true)
    (haddr : env.address.data.all Char.isWhitespace = false)
    (hgeo : geocode_location env env.address = some loc)
    (h14 : env.trImg 2014 = Except.ok ()) (h24 : env.trImg 2024 = Except.ok ())
    (hmean : compute_mean_ndvi (env.trInfo 2014)
      (get_ndvi_core env.world 2014 (create_roi env loc.longitude loc.latitude env.buffer_km))
      (create_roi env loc.longitude loc.latitude env.buffer_km) = none ∨
      compute_mean_ndvi (env.trInfo 2024)
      (get_ndvi_core env.world 2024 (create_roi env loc.longitude loc.latitude env.buffer_km))
      (create_roi env loc.longitude loc.latitude env.buffer_km) = none) :
    app_screen env persona = AuditOutcome.errorMsg
      "Could not compute vegetation stats for this area. Try a slightly larger radius or a different location." ∧
    ∀ d v, app_screen env persona ≠ AuditOutcome.report d v := by
  have h := app_screen_insufficient env persona loc hee hra haddr hgeo h14 h24 hmean
  refine ⟨h, ?_⟩
  intro d v hc
  rw [h] at hc
  exact AuditOutcome.noConfusion hc

theorem C6_insufficient_data_witness :
    app_screen exEnvNoScenes "public" = AuditOutcome.errorMsg
      "Could not compute vegetation stats for this area. Try a slightly larger radius or a different location." :=
  (C6_insufficient_data exEnvNoScenes "public" exLoc rfl rfl (by decide) rfl rfl rfl
    (Or.inl exEnvNoScenes_mean_2014)).1

/-- C7 counterexample: on a concrete successful audit, the computed trend
sequence differs between the scientist and public personas (it is computed
only for scientist and student, and left empty for public), so the computed
values are not all identical across the three persona modes. -/
theorem C7_persona_counterexample :
    audit_trend exEnv "scientist" ≠ audit_trend exEnv "public" := by
  have hs := app_screen_success exEnv "scientist" exLoc (1 / 2) (1 / 3)
    rfl rfl (by decide) rfl rfl rfl exEnv_mean_2014 exEnv_mean_2024
  have hp := app_screen_success exEnv "public" exLoc (1 / 2) (1 / 3)
    rfl rfl (by decide) rfl rfl rfl exEnv_mean_2014 exEnv_mean_2024
  unfold audit_trend audit_data
  rw [hs, hp]
  intro h
  simp only [Option.map_some', Option.some.injEq, Prod.mk.injEq] at h
  have hyears : (if (("scientist" == "scientist" || "scientist" == "student") : Bool) then
      compute_ndvi_series exEnv
        (create_roi exEnv exLoc.longitude exLoc.latitude exEnv.buffer_km) 2014 2024
    else ([], [])).1 =
      (if (("public" == "scientist" || "public" == "student") : Bool) then
      compute_ndvi_series exEnv
        (create_roi exEnv exLoc.longitude exLoc.latitude exEnv.buffer_km) 2014 2024
    else ([], [])).1 := h.1
  simp only [show (("scientist" == "scientist" || "scientist" == "student") : Bool) = true
      from rfl,
    show (("public" == "scientist" || "public" == "student") : Bool) = false from rfl,
    if_true, Bool.false_eq_true, if_false] at hyears
  have hlen := congrArg List.length hyears
  rw [compute_ndvi_series_years] at hlen
  simp only [List.length_map, List.length_range, List.length_nil] at hlen
  omega

/-- C7 (amended): for every fixed location, radius, and year inputs, on any
successful audit the mean index values, green scores, percent change, and
timelapse artifact are identical across all personas; the trend sequence is
identical between the scientist and student modes, and is empty in public
mode (it is computed only for scientist and student); the persona selector
otherwise affects only which fields and explanatory text are displayed. -/
theorem C7_persona_independence_amended (env : Env) (p q : String) (loc : Loc)
    (m2014 m2024 : ℚ)
    (hee : env.eeInitOk = true) (hra : env.run_audit = true)
    (haddr : env.address.data.all Char.isWhitespace = false)
    (hgeo : geocode_location env env.address = some loc)
    (h14 : env.trImg 2014 = Except.ok ()) (h24 : env.trImg 2024 = Except.ok ())
    (hm14 : compute_mean_ndvi (env.trInfo 2014)
      (get_ndvi_core env.world 2014 (create_roi env loc.longitude loc.latitude env.buffer_km))
      (create_roi env loc.longitude loc.latitude env.buffer_km) = some m2014)
    (hm24 : compute_mean_ndvi (env.trInfo 2024)
      (get_ndvi_core env.world 2024 (create_roi env loc.longitude loc.latitude env.buffer_km))
      (create_roi env loc.longitude loc.latitude env.buffer_km) = some m2024) :
    audit_core env p = audit_core env q ∧
    ((p = "scientist" ∨ p = "student") → (q = "scientist" ∨ q = "student") →
      audit_trend env p = audit_trend env q) ∧
    audit_trend env "public" = some ([], []) := by
  have hp := app_screen_success env p loc m2014 m2024 hee hra haddr hgeo h14 h24 hm14 hm24
  have hq := app_screen_success env q loc m2014 m2024 hee hra haddr hgeo h14 h24 hm14 hm24
  have hpub := app_screen_success env "public" loc m2014 m2024 hee hra haddr hgeo h14 h24
    hm14 hm24
  refine ⟨?_, ?_, ?_⟩
  · unfold audit_core audit_data
    rw [hp, hq]
    rfl
  · intro hps hqs
    have hcp : ((p == "scientist" || p == "student") : Bool) = true := by
      rcases hps with h | h <;> subst h <;> rfl
    have hcq : ((q == "scientist" || q == "student") : Bool) = true := by
      rcases hqs with h | h <;> subst h <;> rfl
    unfold audit_trend audit_data
    rw [hp, hq]
    simp only [hcp, hcq, if_true]
  · unfold audit_trend audit_data
    rw [hpub]
    rfl

theorem C7_persona_independence_amended_witness :
    audit_core exEnv "public" = audit_core exEnv "scientist" ∧
    audit_trend exEnv "scientist" = audit_trend exEnv "student" ∧
    audit_trend exEnv "public" = some ([], []) :=
  ⟨(C7_persona_independence_amended exEnv "public" "scientist" exLoc (1 / 2) (1 / 3)
      rfl rfl (by decide) rfl rfl rfl exEnv_mean_2014 exEnv_mean_2024).1,
   (C7_persona_independence_amended exEnv "scientist" "student" exLoc (1 / 2) (1 / 3)
      rfl rfl (by decide) rfl rfl rfl exEnv_mean_2014 exEnv_mean_2024).2.1
     (Or.inl rfl) (Or.inr rfl),
   (C7_persona_independence_amended exEnv "public" "scientist" exLoc (1 / 2) (1 / 3)
      rfl rfl (by decide) rfl rfl rfl exEnv_mean_2014 exEnv_mean_2024).2.2⟩

/-- C9: if timelapse generation raises or produces no output file, the audit
run still returns a full report whose numeric and statistical fields are
exactly those of the same run with a working timelapse, together with the
timelapse-unavailable warning, and no exception escapes (the outcome is still
a report). -/
theorem C9_timelapse_degraded (env : Env) (persona : String) (loc : Loc)
    (m2014 m2024 : ℚ)
    (hee : env.eeInitOk = true) (hra : env.run_audit = true)
    (haddr : env.address.data.all Char.isWhitespace = false)
    (hgeo : geocode_location env env.address = some loc)
    (h14 : env.trImg 2014 = Except.ok ()) (h24 : env.trImg 2024 = Except.ok ())
    (hm14 : compute_mean_ndvi (env.trInfo 2014)
      (get_ndvi_core env.world 2014 (create_roi env loc.longitude loc.latitude env.buffer_km))
      (create_roi env loc.longitude loc.latitude env.buffer_km) = some m2014)
    (hm24 : compute_mean_ndvi (env.trInfo 2024)
      (get_ndvi_core env.world 2024 (create_roi env loc.longitude loc.latitude env.buffer_km))
      (create_roi env loc.longitude loc.latitude env.buffer_km) = some m2024)
    (hfail : (∃ e, env.timelapse = Except.error e) ∨
      env.fsExists "terrtime_timelapse.gif" = false) :
    (∃ d v, app_screen env persona = AuditOutcome.report d v ∧
      d.gif_path = none ∧ v.timelapse = TimelapseSection.warningUnavailable ∧
      d.mean_ndvi_2014 = m2014 ∧ d.mean_ndvi_2024 = m2024 ∧
      d.green_score_2014 = green_score m2014 ∧ d.green_score_2024 = green_score m2024 ∧
      d.pct_change = pct_change m2014 m2024) ∧
    stripTimelapse (app_screen env persona) =
      stripTimelapse (app_screen
        { env with timelapse := Except.ok (), fsExists := fun _ => true } persona) := by
  have hgif : create_timelapse_gif env "terrtime_timelapse.gif" = none := by
    rcases hfail with ⟨e, he⟩ | hf
    · unfold create_timelapse_gif
      rw [he]
    · unfold create_timelapse_gif
      cases env.timelapse
      · rfl
      · rw [hf]
        rfl
  have hsucc := app_screen_success env persona loc m2014 m2024 hee hra haddr hgeo
    h14 h24 hm14 hm24
  have hsucc2 := app_screen_success
    { env with timelapse := Except.ok (), fsExists := fun _ => true }
    persona loc m2014 m2024 hee hra haddr hgeo h14 h24 hm14 hm24
  rw [hgif] at hsucc
  constructor
  · exact ⟨_, _, hsucc, rfl, rfl, rfl, rfl, rfl, rfl, rfl⟩
  · rw [hsucc, hsucc2]
    rfl

theorem C9_timelapse_degraded_witness :
    stripTimelapse (app_screen exEnvGifFail "public") =
      stripTimelapse (app_screen
        { exEnvGifFail with timelapse := Except.ok (), fsExists := fun _ => true }
        "public") :=
  (C9_timelapse_degraded exEnvGifFail "public" exLoc (1 / 2) (1 / 3) rfl rfl (by decide)
    rfl rfl rfl exEnv_mean_2014 exEnv_mean_2024 (Or.inl ⟨"timelapse error", rfl⟩)).2
